import Mathlib

/-!
Verification development for the student-counseling manager (src/index.tsx).

The source is a single React component file.  Its state-bearing logic — the
roster store, the identifier generator, the session recorder, the
transcription pipeline and the annotation merger — is embedded below as pure
Lean functions over explicit state values.  JavaScript `undefined`/`null`
values in optional positions are modelled as `Option`; the asynchronous
pipeline is modelled as a pure function of its inputs (the parsed AI
response is an input); `Date.now()` readings are explicit `Nat` parameters.
`String.prototype.localeCompare` is modelled as code-point lexicographic
comparison, and `Array.prototype.sort` (specified stable in ECMAScript) as a
stable insertion sort — a stable ascending sort's output is uniquely
determined by the comparator and the input order, so this is faithful to
any stable implementation.
-/

namespace HoneyModel

/-- A captured audio payload (JavaScript `Blob`): opaque byte content plus a
MIME type tag. -/
structure Blob where
  data : List Nat
  mime : String
deriving DecidableEq

/-- The `Counsel` record (src/index.tsx lines 7–15).  The TypeScript
interface declares `transcription`/`feedback` as `string`, but at runtime
`handleTranscribeAndFeedback` stores `jsonResponse.transcription` /
`jsonResponse.feedback` unchecked, which are `undefined` whenever the parsed
JSON object lacks the property; the two fields are therefore modelled as
`Option String`, `none` standing for `undefined`. -/
structure Counsel where
  id : String
  date : String
  audio : Option Blob
  transcription : Option String
  feedback : Option String
  reflectionImage : Option String
  educationalNotes : Option String
deriving DecidableEq

/-- The `Student` record (src/index.tsx lines 17–25).  The source field
`class` is a reserved word in Lean and is rendered `classLabel`. -/
structure Student where
  id : String
  classLabel : String
  number : String
  name : String
  mbti : String
  notes : String
  counsels : List Counsel
deriving DecidableEq

/-- The five editable fields handled by the registration form
(src/index.tsx lines 329–335). -/
structure StudentFields where
  classLabel : String
  number : String
  name : String
  mbti : String
  notes : String
deriving DecidableEq

/-- Code-point lexicographic `≤` on character lists.  This is the model of
the string comparison performed by `localeCompare` at src/index.tsx lines
59 and 66 (locale collation abstracted as code-point order). -/
def lexLe : List Char → List Char → Bool
  | [], _ => true
  | _ :: _, [] => false
  | a :: as, b :: bs =>
    if a.toNat = b.toNat then lexLe as bs
    else decide (a.toNat < b.toNat)

/-- The sort key built at src/index.tsx lines 59 and 66: the class label
and the number joined by a hyphen. -/
def sortKey (s : Student) : String := s.classLabel ++ "-" ++ s.number

/-- The roster comparator of src/index.tsx lines 59 and 66: the joined
key of `a` compares `<= 0` against the joined key of `b`. -/
def rosterLe (a b : Student) : Prop := lexLe (sortKey a).data (sortKey b).data = true

instance : DecidableRel rosterLe := fun _ _ => instDecidableEqBool _ _

/-- Decimal digit characters of `n`, most significant first, computed with a
structural fuel argument (any `fuel > n` is enough).  This is the character
content of JavaScript `n.toString()` for a natural number `n`. -/
def decCharsAux : Nat → Nat → List Char
  | 0, _ => []
  | fuel + 1, n =>
    if n < 10 then [Char.ofNat (48 + n)]
    else decCharsAux fuel (n / 10) ++ [Char.ofNat (48 + n % 10)]

/-- Model of the identity generator `Date.now().toString()`
(src/index.tsx lines 56 and 173): the current millisecond timestamp `t`
rendered in decimal. -/
def dateNowId (t : Nat) : String := ⟨decCharsAux (t + 1) t⟩

/-- Numeric value of a decimal character list (left inverse of
`decCharsAux`). -/
def decVal (l : List Char) : Nat := l.foldl (fun acc c => acc * 10 + (c.toNat - 48)) 0

/-- `handleAddStudent` (src/index.tsx lines 53–61): builds a new student
with a freshly issued id and an empty counsel list, appends it to the
roster and re-sorts by the joined `class-number` key.  `now` is the
`Date.now()` reading at the moment of the call. -/
def handleAddStudent (now : Nat) (f : StudentFields) (students : List Student) : List Student :=
  let newStudent : Student :=
    { id := dateNowId now, classLabel := f.classLabel, number := f.number,
      name := f.name, mbti := f.mbti, notes := f.notes, counsels := [] }
  List.insertionSort rosterLe (students ++ [newStudent])

/-- `handleUpdateStudent` (src/index.tsx lines 63–69): replaces every
student whose `id` matches the incoming record and re-sorts. -/
def handleUpdateStudent (stu : Student) (students : List Student) : List Student :=
  List.insertionSort rosterLe (students.map fun s => if s.id = stu.id then stu else s)

/-- The merged record built by the edit branch of `handleSubmit`
(src/index.tsx lines 371–375): `{ ...editingStudent, ...formData }` — the
five form fields overwrite, `id` and `counsels` come from the record being
edited. -/
def handleSubmitUpdate (editingStudent : Student) (formData : StudentFields) : Student :=
  { id := editingStudent.id, classLabel := formData.classLabel, number := formData.number,
    name := formData.name, mbti := formData.mbti, notes := formData.notes,
    counsels := editingStudent.counsels }

/-- The order the claim C4 speaks about, written from the claim's words
(`sorted by the pair (classLabel, number) under lexicographic/locale
comparison`): compare class labels first and break ties by number.  This is
deliberately NOT taken from the source — the source compares the joined
`class-number` strings — so that the two orders can be compared. -/
def specPairLe (a b : Student) : Bool :=
  if a.classLabel = b.classLabel then lexLe a.number.data b.number.data
  else lexLe a.classLabel.data b.classLabel.data

/-- The store-level prepend performed by the success branch of
`handleTranscribeAndFeedback` (src/index.tsx lines 180–184): every student
whose `id` matches `sid` gets the new counsel at the head of its `counsels`
list; everyone else is returned unchanged. -/
def prependSession (sid : String) (c : Counsel) (students : List Student) : List Student :=
  students.map fun s => if s.id = sid then { s with counsels := c :: s.counsels } else s

/-- Model of the JavaScript expression `image || undefined`
(src/index.tsx line 204): `null` and the empty string are falsy and both
collapse to `undefined`. -/
def imageOrUndefined : Option String → Option String
  | none => none
  | some s => if s = "" then none else some s

/-- `handleSaveEducationData` (src/index.tsx lines 195–210), the annotation
merger: on the student matching `studentId`, every counsel matching
`counselId` is rebuilt with `reflectionImage := image || undefined` and
`educationalNotes := notes`; all other records are returned unchanged. -/
def handleSaveEducationData (studentId counselId : String) (image : Option String)
    (notes : String) (students : List Student) : List Student :=
  students.map fun student =>
    if student.id ≠ studentId then student
    else { student with
            counsels := student.counsels.map fun counsel =>
              if counsel.id ≠ counselId then counsel
              else { counsel with
                      reflectionImage := imageOrUndefined image,
                      educationalNotes := some notes } }

/-- The parsed AI response seen by the pipeline after `JSON.parse`
(src/index.tsx line 170): each of the two expected properties is either a
string or absent (`undefined`). -/
structure RespFields where
  transcription : Option String
  feedback : Option String
deriving DecidableEq

/-- The slice of the App component state read and written by
`handleTranscribeAndFeedback` (src/index.tsx lines 31–36). -/
structure AppState where
  students : List Student
  selectedStudentId : Option String
  audioBlob : Option Blob
deriving DecidableEq

/-- How one call of `handleTranscribeAndFeedback` ended: the early return
at line 119 (`notRun`), the end of the `try` block (`success`), or the
`catch` block at lines 187–189 (`failure` — the alert that models the
surfaced `TranscriptionError`). -/
inductive PipelineOutcome
  | notRun
  | success
  | failure
deriving DecidableEq

structure PipelineResult where
  state : AppState
  outcome : PipelineOutcome
deriving DecidableEq

/-- `handleTranscribeAndFeedback` (src/index.tsx lines 118–193), modelled
as a pure function.  `now`/`dateStr` are the `Date.now()` and
`toLocaleString` readings at line 173–174; `resp` is the outcome of
`JSON.parse(response.text)` — `none` when the round-trip or the parse threw
(malformed response, network error, refusal), `some r` when a JSON object
was obtained, its two properties possibly absent.  The code checks neither
property: on `some r` the new `Counsel` is always built and prepended and
the pending audio blob is cleared (lines 172–185); the `catch` branch
leaves `students` and `audioBlob` untouched. -/
def handleTranscribeAndFeedback (now : Nat) (dateStr : String) (resp : Option RespFields)
    (st : AppState) : PipelineResult :=
  match st.audioBlob, st.selectedStudentId with
  | none, _ => ⟨st, .notRun⟩
  | some _, none => ⟨st, .notRun⟩
  | some blob, some sid =>
    match st.students.find? (fun s => s.id == sid) with
    | none => ⟨st, .failure⟩
    | some _ =>
      match resp with
      | none => ⟨st, .failure⟩
      | some r =>
        let newCounsel : Counsel :=
          { id := dateNowId now, date := dateStr, audio := some blob,
            transcription := r.transcription, feedback := r.feedback,
            reflectionImage := none, educationalNotes := none }
        ⟨{ students := prependSession sid newCounsel st.students,
           selectedStudentId := some sid, audioBlob := none }, .success⟩

/-- The `MediaRecorder` handle held in `mediaRecorder.current`: only its
`state` property ("recording" / "inactive") is consulted by the code. -/
structure MediaRecorderModel where
  recState : String
deriving DecidableEq

/-- The recorder-related component state (src/index.tsx lines 35–36 and
48–49). -/
structure RecorderState where
  mediaRecorder : Option MediaRecorderModel
  audioChunks : List Blob
  isRecording : Bool
  audioBlob : Option Blob
deriving DecidableEq

/-- Whether a capture is in progress, as tested by the guard at
src/index.tsx line 97: a recorder exists and its state is "recording". -/
def isCapturing (st : RecorderState) : Bool :=
  match st.mediaRecorder with
  | some mr => mr.recState == "recording"
  | none => false

/-- The success path of `startRecording` (src/index.tsx lines 71–89), i.e.
what happens when `getUserMedia` resolves: a fresh recorder is installed,
the chunk buffer is emptied, recording starts, `isRecording` is set and the
pending `audioBlob` is cleared.  Note the function inspects no existing
state — there is no busy-check of any kind. -/
def startRecordingSuccess (_st : RecorderState) : RecorderState :=
  { mediaRecorder := some ⟨"recording"⟩, audioChunks := [],
    isRecording := true, audioBlob := none }

/-- The failure path of `startRecording` (src/index.tsx lines 90–93):
`getUserMedia` rejected; only an alert fires, the state is untouched. -/
def startRecordingFailure (st : RecorderState) : RecorderState := st

/-- `new Blob(audioChunks.current, { type: 'audio/webm' })`
(src/index.tsx line 82): concatenation of the buffered chunks. -/
def finalizeChunks (chunks : List Blob) : Blob :=
  ⟨(chunks.map Blob.data).flatten, "audio/webm"⟩

/-- `stopRecording` (src/index.tsx lines 96–101) together with the `onstop`
handler it triggers (lines 81–85), collapsed into one synchronous step: if
the current recorder is in state "recording" it is stopped, `isRecording`
is lowered and the finalized payload is published to `audioBlob`; in every
other state the call does nothing. -/
def stopRecording (st : RecorderState) : RecorderState :=
  match st.mediaRecorder with
  | some mr =>
    if mr.recState = "recording" then
      { st with mediaRecorder := some ⟨"inactive"⟩, isRecording := false,
                audioBlob := some (finalizeChunks st.audioChunks) }
    else st
  | none => st

/-- The annotation (education) view's selection state
(src/index.tsx lines 438–439). -/
structure EducationSelection where
  selectedStudentId : Option String
  selectedCounselId : Option String
deriving DecidableEq

/-- `handleStudentClick` (src/index.tsx lines 459–462): sets the selected
student (possibly to null, as the mobile back button does) and
unconditionally clears the selected counsel. -/
def handleStudentClick (studentId : Option String) (_st : EducationSelection) :
    EducationSelection :=
  { selectedStudentId := studentId, selectedCounselId := none }

/-! ### Concrete sample values used by witnesses and counterexamples -/

def blobA : Blob := ⟨[1, 2, 3], "audio/webm"⟩

def counselA : Counsel :=
  { id := "c1", date := "d1", audio := some blobA, transcription := some "t0",
    feedback := some "f0", reflectionImage := some "img0", educationalNotes := none }

def stuA : Student :=
  { id := "100", classLabel := "1", number := "5", name := "Kim", mbti := "",
    notes := "", counsels := [counselA] }

def fieldsKim : StudentFields := ⟨"1", "23", "Kim", "", ""⟩

def fieldsLee : StudentFields := ⟨"1-2", "3", "Lee", "", ""⟩

/-- An idle recorder state: inactive handle, empty buffer, flag down. -/
def recIdle : RecorderState := ⟨some ⟨"inactive"⟩, [], false, none⟩

/-- An app state ready to run the pipeline: one student, selected, with a
captured audio payload pending. -/
def stateA : AppState := ⟨[stuA], some "100", some blobA⟩

/-! ### Helper lemmas -/

theorem lexLe_refl : ∀ a : List Char, lexLe a a = true
  | [] => rfl
  | a :: as => by simp only [lexLe, if_pos rfl]; exact lexLe_refl as

theorem lexLe_trans : ∀ a b c : List Char,
    lexLe a b = true → lexLe b c = true → lexLe a c = true
  | [], _, _, _, _ => rfl
  | _ :: _, [], _, h1, _ => by simp [lexLe] at h1
  | _ :: _, _ :: _, [], _, h2 => by simp [lexLe] at h2
  | a :: as, b :: bs, c :: cs, h1, h2 => by
    simp only [lexLe] at h1 h2 ⊢
    by_cases hab : a.toNat = b.toNat
    · by_cases hbc : b.toNat = c.toNat
      · rw [if_pos hab] at h1
        rw [if_pos hbc] at h2
        rw [if_pos (hab.trans hbc)]
        exact lexLe_trans as bs cs h1 h2
      · rw [if_neg hbc] at h2
        rw [if_neg (show ¬ a.toNat = c.toNat by omega)]
        simp only [decide_eq_true_eq] at h2 ⊢
        omega
    · rw [if_neg hab] at h1
      simp only [decide_eq_true_eq] at h1
      by_cases hbc : b.toNat = c.toNat
      · rw [if_neg (show ¬ a.toNat = c.toNat by omega)]
        simp only [decide_eq_true_eq]
        omega
      · rw [if_neg hbc] at h2
        simp only [decide_eq_true_eq] at h2
        rw [if_neg (show ¬ a.toNat = c.toNat by omega)]
        simp only [decide_eq_true_eq]
        omega

theorem lexLe_total : ∀ a b : List Char, lexLe a b = true ∨ lexLe b a = true
  | [], _ => Or.inl rfl
  | _ :: _, [] => Or.inr rfl
  | a :: as, b :: bs => by
    simp only [lexLe]
    by_cases hab : a.toNat = b.toNat
    · rw [if_pos hab, if_pos hab.symm]
      exact lexLe_total as bs
    · rw [if_neg hab, if_neg (Ne.symm hab)]
      simp only [decide_eq_true_eq]
      omega

instance : IsTrans Student rosterLe := ⟨fun _ _ _ => lexLe_trans _ _ _⟩

instance : IsTotal Student rosterLe := ⟨fun _ _ => lexLe_total _ _⟩

/-- After `handleAddStudent` the roster is sorted by the joined
`class-number` key. -/
theorem sorted_handleAddStudent (now : Nat) (f : StudentFields) (students : List Student) :
    (handleAddStudent now f students).Sorted rosterLe :=
  List.sorted_insertionSort rosterLe _

/-- After `handleUpdateStudent` the roster is sorted by the joined
`class-number` key. -/
theorem sorted_handleUpdateStudent (stu : Student) (students : List Student) :
    (handleUpdateStudent stu students).Sorted rosterLe :=
  List.sorted_insertionSort rosterLe _

/-- `prependSession` only touches `counsels`, so it preserves the sort keys
and hence sortedness of the roster; together with the two lemmas above and
the empty initial roster this makes every store state of the program sorted. -/
theorem sorted_prependSession (sid : String) (c : Counsel) {students : List Student}
    (h : students.Sorted rosterLe) : (prependSession sid c students).Sorted rosterLe := by
  unfold prependSession
  refine List.Pairwise.map _ (fun a b hab => ?_) h
  unfold rosterLe sortKey at *
  split <;> split <;> simpa using hab

/-- `handleSaveEducationData` only touches `counsels`, so it also preserves
sortedness of the roster. -/
theorem sorted_handleSaveEducationData (sid cid : String) (img : Option String) (nts : String)
    {students : List Student} (h : students.Sorted rosterLe) :
    (handleSaveEducationData sid cid img nts students).Sorted rosterLe := by
  unfold handleSaveEducationData
  refine List.Pairwise.map _ (fun a b hab => ?_) h
  unfold rosterLe sortKey at *
  split <;> split <;> simpa using hab

/-- Mapping a function that fixes every member of a list is the identity. -/
theorem map_eq_self_of_mem {α : Type} {f : α → α} :
    ∀ {l : List α}, (∀ a ∈ l, f a = a) → l.map f = l
  | [], _ => rfl
  | a :: l, h => by
    have h1 : f a = a := h a (List.mem_cons_self a l)
    have h2 : l.map f = l := map_eq_self_of_mem fun b hb => h b (List.mem_cons_of_mem a hb)
    simp only [List.map, h1, h2]

theorem toNat_digitChar (d : Nat) (h : d < 10) : (Char.ofNat (48 + d)).toNat = 48 + d := by
  interval_cases d <;> decide

theorem decVal_decCharsAux : ∀ fuel n, n < fuel → decVal (decCharsAux fuel n) = n := by
  intro fuel
  induction fuel with
  | zero => intro n h; omega
  | succ fuel ih =>
    intro n h
    by_cases h10 : n < 10
    · simp only [decCharsAux, if_pos h10, decVal, List.foldl_cons, List.foldl_nil]
      rw [toNat_digitChar n h10]
      omega
    · have ihv : decVal (decCharsAux fuel (n / 10)) = n / 10 := ih (n / 10) (by omega)
      simp only [decCharsAux, if_neg h10, decVal, List.foldl_append,
        List.foldl_cons, List.foldl_nil] at ihv ⊢
      rw [ihv, toNat_digitChar (n % 10) (by omega)]
      omega

/-- The decimal rendering used for identifiers is injective: distinct
`Date.now()` readings give distinct id strings. -/
theorem dateNowId_inj {t1 t2 : Nat} (h : dateNowId t1 = dateNowId t2) : t1 = t2 := by
  have hd : decCharsAux (t1 + 1) t1 = decCharsAux (t2 + 1) t2 := congrArg String.data h
  have e1 := decVal_decCharsAux (t1 + 1) t1 (by omega)
  have e2 := decVal_decCharsAux (t2 + 1) t2 (by omega)
  rw [hd, e2] at e1
  exact e1.symm

/-- The numeric reading of an issued identifier is the `Date.now()` value
it was issued from. -/
theorem decVal_dateNowId (t : Nat) : decVal (dateNowId t).data = t :=
  decVal_decCharsAux (t + 1) t (by omega)

/-! ### Claim theorems -/

/-- C3 (counterexample): the claim asserts that any two identifiers issued
in order (issuance times are nondecreasing, equal in the same instant) are
distinct, with the later one strictly greater, "including when the two
entities are created in the same instant".  This is false: two issuances in
the same millisecond produce the very same string, and concretely two
students registered at the same `Date.now()` reading end up with equal
ids. -/
theorem identifier_same_instant_counterexample :
    (¬ ∀ t1 t2 : Nat, t1 ≤ t2 → dateNowId t1 ≠ dateNowId t2) ∧
    (handleAddStudent 1700000000123 fieldsLee
        (handleAddStudent 1700000000123 fieldsKim [])).map Student.id
      = [dateNowId 1700000000123, dateNowId 1700000000123] := by
  constructor
  · intro h
    exact h 1700000000123 1700000000123 le_rfl rfl
  · rfl

/-- C3 (amended): identifiers issued at distinct `Date.now()` readings are
distinct, and the numeric value of the later identifier is strictly
greater; identifiers issued in the same millisecond coincide. -/
theorem identifier_distinct_instants (t1 t2 : Nat) (h : t1 < t2) :
    dateNowId t1 ≠ dateNowId t2 ∧
    decVal (dateNowId t1).data < decVal (dateNowId t2).data := by
  constructor
  · intro he
    have := dateNowId_inj he
    omega
  · rw [decVal_dateNowId, decVal_dateNowId]
    exact h

/-- Witness for C3: instantiated at the readings 3 < 7. -/
theorem identifier_distinct_instants_witness :
    dateNowId 3 ≠ dateNowId 7 ∧ decVal (dateNowId 3).data < decVal (dateNowId 7).data :=
  identifier_distinct_instants 3 7 (by decide)

/-- C4 (counterexample): the store is NOT sorted by the pair
(classLabel, number): registering ("1", "23") and then ("1-2", "3") yields
the roster in joined-key order ["1-2-3" < "1-23"], i.e. the "1-2" class
before the "1" class, which violates the pair order (classLabel "1" sorts
before "1-2"). -/
theorem roster_pair_order_counterexample :
    ¬ (handleAddStudent 8 fieldsLee (handleAddStudent 7 fieldsKim [])).Pairwise
        (fun a b => specPairLe a b = true) := by decide

/-- C4 (amended): after every register and every update call, from any
prior store state, the collection is sorted by the locale comparison of the
joined string classLabel ++ "-" ++ number (the comparator actually used at
src/index.tsx lines 59 and 66).  This coincides with the (classLabel,
number) pair order when the fields contain no hyphen or smaller character,
but not in general. -/
theorem roster_sorted_by_joined_key (now : Nat) (f : StudentFields) (stu : Student)
    (students : List Student) :
    (handleAddStudent now f students).Sorted rosterLe ∧
    (handleUpdateStudent stu students).Sorted rosterLe :=
  ⟨sorted_handleAddStudent now f students, sorted_handleUpdateStudent stu students⟩

/-- C5: after `prependSession`, the targeted student's new counsel list is
the new session consed onto the previous list — the new session is at index
0 and all prior sessions keep their relative order — and when no student's
id resolves the call returns the store unchanged. -/
theorem prependSession_spec (students : List Student) (sid : String) (c : Counsel) :
    ((∀ s ∈ students, s.id ≠ sid) → prependSession sid c students = students) ∧
    ∀ s ∈ students, s.id = sid →
      ∃ s' ∈ prependSession sid c students, s'.id = s.id ∧ s'.counsels = c :: s.counsels := by
  constructor
  · intro h
    unfold prependSession
    exact map_eq_self_of_mem fun s hs => if_neg (h s hs)
  · intro s hs hid
    refine ⟨_, List.mem_map_of_mem _ hs, ?_⟩
    rw [if_pos hid]
    exact ⟨rfl, rfl⟩

/-- Witness for C5: the no-op branch at an unresolvable id "999" and the
prepend branch at the resolving id "100". -/
theorem prependSession_spec_witness :
    prependSession "999" counselA [stuA] = [stuA] ∧
    ∃ s' ∈ prependSession "100" counselA [stuA],
      s'.id = stuA.id ∧ s'.counsels = counselA :: stuA.counsels := by
  constructor
  · exact (prependSession_spec [stuA] "999" counselA).1 (by decide)
  · exact (prependSession_spec [stuA] "100" counselA).2 stuA (by decide) rfl

/-- C6: updating with a student value whose id matches nobody leaves the
store unchanged by value.  The sortedness hypothesis is an invariant of
every store state the program can reach: the store starts empty and every
mutating operation either re-sorts (register, update) or preserves the sort
keys (prependSession, handleSaveEducationData) — see
sorted_handleAddStudent, sorted_handleUpdateStudent, sorted_prependSession
and sorted_handleSaveEducationData. -/
theorem update_unmatched_id_noop (students : List Student) (stu : Student)
    (hsorted : students.Sorted rosterLe) (hid : ∀ s ∈ students, s.id ≠ stu.id) :
    handleUpdateStudent stu students = students := by
  unfold handleUpdateStudent
  rw [map_eq_self_of_mem fun s hs => if_neg (hid s hs)]
  exact List.Sorted.insertionSort_eq hsorted

/-- Witness for C6: a one-student sorted store and an update value with the
unmatched id "999". -/
theorem update_unmatched_id_noop_witness :
    handleUpdateStudent { stuA with id := "999" } [stuA] = [stuA] :=
  update_unmatched_id_noop [stuA] { stuA with id := "999" } (by decide) (by decide)

/-- C7: in the annotation view, changing the selected student — to another
student or to null — always clears the selected counsel id, and records the
requested student id. -/
theorem student_change_clears_session_focus (st : EducationSelection) (sid : Option String) :
    (handleStudentClick sid st).selectedCounselId = none ∧
    (handleStudentClick sid st).selectedStudentId = sid :=
  ⟨rfl, rfl⟩

/-- C9: the edit surface's merged record keeps the edited student's id and
counsel list, takes the five editable fields from the form, and the update
call replaces exactly the records with the matching id (up to the re-sort
permutation). -/
theorem edit_preserves_id_and_counsels (editing : Student) (form : StudentFields)
    (students : List Student) :
    (handleSubmitUpdate editing form).id = editing.id ∧
    (handleSubmitUpdate editing form).counsels = editing.counsels ∧
    (handleSubmitUpdate editing form).classLabel = form.classLabel ∧
    (handleSubmitUpdate editing form).number = form.number ∧
    (handleSubmitUpdate editing form).name = form.name ∧
    (handleSubmitUpdate editing form).mbti = form.mbti ∧
    (handleSubmitUpdate editing form).notes = form.notes ∧
    (handleUpdateStudent (handleSubmitUpdate editing form) students).Perm
      (students.map fun s =>
        if s.id = editing.id then handleSubmitUpdate editing form else s) := by
  refine ⟨rfl, rfl, rfl, rfl, rfl, rfl, rfl, ?_⟩
  exact List.perm_insertionSort rosterLe _

/-- C1 (code bug): with a captured payload and a selected student, a
round-trip whose response parses to a JSON object that lacks the `feedback`
property does NOT fail: `handleTranscribeAndFeedback` checks neither
required property after `JSON.parse`, so it builds a `Counsel` whose
`feedback` is `undefined`, prepends it to the roster, reports no error and
clears the pending audio — contradicting the declared response schema
(`required: ["transcription", "feedback"]`, src/index.tsx line 165), the
`Counsel` interface (`feedback: string`, line 12) and the spec's no-partial-
write rule.  Evaluated here at a concrete input. -/
theorem pipeline_missing_feedback_still_writes :
    handleTranscribeAndFeedback 555 "d1" (some ⟨some "t1", none⟩) stateA =
      { state :=
          { students := [{ stuA with counsels :=
              { id := dateNowId 555, date := "d1", audio := some blobA,
                transcription := some "t1", feedback := none,
                reflectionImage := none, educationalNotes := none } :: stuA.counsels }],
            selectedStudentId := some "100", audioBlob := none },
        outcome := .success } := by
  decide

/-- C2 (counterexample): the claim says an absent image argument leaves the
stored image unchanged and never clears it.  False: the targeted counsel of
`stuA` holds the image "img0", and one `handleSaveEducationData` call whose
`image` argument is null (`none`) rewrites `reflectionImage` to
`image || undefined`, i.e. clears it. -/
theorem patch_null_image_clears_counterexample :
    counselA.reflectionImage = some "img0" ∧
    (handleSaveEducationData "100" "c1" none "n1" [stuA]).map
        (fun s => s.counsels.map Counsel.reflectionImage) = [[none]] := by
  decide

/-- C2 (amended): a patch call touches only the student matching
`studentId` and, inside it, only the counsels matching `counselId`; of
those it never alters `id`, `date` (the timestamp), `transcription`,
`feedback` or `audio`.  However both annotation fields are written on every
call: `reflectionImage` is set to the supplied image — a null or empty
image argument clears any stored image — and `educationalNotes` is set to
the supplied notes.  Successive patches are additive only because the
caller (`handleSave`, src/index.tsx lines 485–495) resubmits the previously
loaded value of the field it did not touch. -/
theorem patchSession_amended (students : List Student) (sid cid : String)
    (img : Option String) (nts : String) :
    ∀ s ∈ students, ∀ c ∈ s.counsels,
      ∃ s' ∈ handleSaveEducationData sid cid img nts students,
        s'.id = s.id ∧ (s.id ≠ sid → s' = s) ∧
        ∃ c' ∈ s'.counsels,
          c'.id = c.id ∧ c'.date = c.date ∧ c'.transcription = c.transcription ∧
          c'.feedback = c.feedback ∧ c'.audio = c.audio ∧
          (s.id = sid → c.id = cid →
            c'.reflectionImage = imageOrUndefined img ∧ c'.educationalNotes = some nts) ∧
          (s.id = sid → c.id ≠ cid → c' = c) := by
  intro s hs c hc
  unfold handleSaveEducationData
  refine ⟨_, List.mem_map_of_mem _ hs, ?_⟩
  by_cases hsid : s.id = sid
  · rw [if_neg (fun hne => hne hsid)]
    refine ⟨rfl, fun hne => absurd hsid hne, ?_⟩
    refine ⟨_, List.mem_map_of_mem _ hc, ?_⟩
    by_cases hcid : c.id = cid
    · rw [if_neg (fun hne => hne hcid)]
      exact ⟨rfl, rfl, rfl, rfl, rfl, fun _ _ => ⟨rfl, rfl⟩, fun _ hne => absurd hcid hne⟩
    · rw [if_pos hcid]
      exact ⟨rfl, rfl, rfl, rfl, rfl, fun _ hc2 => absurd hc2 hcid, fun _ _ => rfl⟩
  · rw [if_pos hsid]
    exact ⟨rfl, fun _ => rfl, c, hc, rfl, rfl, rfl, rfl, rfl,
      fun hs2 => absurd hs2 hsid, fun hs2 => absurd hs2 hsid⟩

/-- Witness for C2: the amended theorem instantiated on the one-student
store, targeting student "100" and counsel "c1" with a fresh image and
notes. -/
theorem patchSession_amended_witness :
    ∃ s' ∈ handleSaveEducationData "100" "c1" (some "img9") "n9" [stuA],
      s'.id = stuA.id ∧ (stuA.id ≠ "100" → s' = stuA) ∧
      ∃ c' ∈ s'.counsels,
        c'.id = counselA.id ∧ c'.date = counselA.date ∧
        c'.transcription = counselA.transcription ∧
        c'.feedback = counselA.feedback ∧ c'.audio = counselA.audio ∧
        (stuA.id = "100" → counselA.id = "c1" →
          c'.reflectionImage = imageOrUndefined (some "img9") ∧
          c'.educationalNotes = some "n9") ∧
        (stuA.id = "100" → counselA.id ≠ "c1" → c' = counselA) :=
  patchSession_amended [stuA] "100" "c1" (some "img9") "n9" stuA (by decide) counselA (by decide)

/-- C8 (counterexample): the claim says calling start while already
Recording is rejected.  False: the success path of `startRecording`
inspects no existing state; invoked on a state that is already recording
(with a buffered chunk) it silently begins a new capture — it empties the
chunk buffer and installs a fresh recorder handle — instead of leaving the
state alone. -/
theorem start_while_recording_counterexample :
    ¬ ∀ st : RecorderState, st.isRecording = true → startRecordingSuccess st = st := by
  intro h
  have h2 := congrArg RecorderState.audioChunks
    (h ⟨some ⟨"recording"⟩, [blobA], true, none⟩ rfl)
  exact absurd h2 (by decide)

/-- C8 (amended): `stopRecording` while no capture is in progress (no
recorder handle, or a handle not in state "recording") is a no-op, exactly
as claimed; but `startRecording` performs no busy-check: on any state
whatsoever its success path unconditionally installs a fresh recording
handle, clears the chunk buffer and the pending payload and raises
`isRecording`.  At most one capture at a time is ensured only by the UI,
which does not render the start control while `isRecording` is set
(src/index.tsx lines 264–268), not by start() rejecting. -/
theorem recorder_amended (st : RecorderState) :
    (isCapturing st = false → stopRecording st = st) ∧
    ((startRecordingSuccess st).isRecording = true ∧
      (startRecordingSuccess st).mediaRecorder = some ⟨"recording"⟩ ∧
      (startRecordingSuccess st).audioChunks = [] ∧
      (startRecordingSuccess st).audioBlob = none) := by
  refine ⟨fun h => ?_, rfl, rfl, rfl, rfl⟩
  unfold isCapturing at h
  unfold stopRecording
  cases hmr : st.mediaRecorder with
  | none => rfl
  | some mr =>
    rw [hmr] at h
    simp only at h ⊢
    rw [if_neg (by simpa using h)]

/-- Witness for C8: the amended theorem applied to an idle recorder
state. -/
theorem recorder_amended_witness :
    stopRecording recIdle = recIdle ∧
    ((startRecordingSuccess recIdle).isRecording = true ∧
      (startRecordingSuccess recIdle).mediaRecorder = some ⟨"recording"⟩ ∧
      (startRecordingSuccess recIdle).audioChunks = [] ∧
      (startRecordingSuccess recIdle).audioBlob = none) :=
  ⟨(recorder_amended recIdle).1 (by decide), (recorder_amended recIdle).2⟩

/-- C10: whenever a captured payload is pending, a pipeline run that ends
in the success branch clears it (`setAudioBlob(null)`, src/index.tsx line
185) so the same finalized capture cannot be resubmitted, while a run that
ends in the catch branch leaves it in place for retry. -/
theorem pipeline_audio_cleared_iff_success (now : Nat) (dateStr : String)
    (resp : Option RespFields) (st : AppState) (b : Blob) (hb : st.audioBlob = some b) :
    ((handleTranscribeAndFeedback now dateStr resp st).outcome = .success →
      (handleTranscribeAndFeedback now dateStr resp st).state.audioBlob = none) ∧
    ((handleTranscribeAndFeedback now dateStr resp st).outcome = .failure →
      (handleTranscribeAndFeedback now dateStr resp st).state.audioBlob = some b) := by
  obtain ⟨stus, ssid, ab⟩ := st
  simp only at hb
  subst hb
  cases ssid with
  | none => exact ⟨fun h => (nomatch h), fun h => (nomatch h)⟩
  | some sid =>
    cases hf : stus.find? (fun s => s.id == sid) with
    | none =>
      simp only [handleTranscribeAndFeedback]
      rw [hf]
      exact ⟨fun h => (nomatch h), fun _ => rfl⟩
    | some s0 =>
      cases resp with
      | none =>
        simp only [handleTranscribeAndFeedback]
        rw [hf]
        exact ⟨fun h => (nomatch h), fun _ => rfl⟩
      | some r =>
        simp only [handleTranscribeAndFeedback]
        rw [hf]
        exact ⟨fun _ => rfl, fun h => (nomatch h)⟩

/-- Witness for C10: a successful run on `stateA` (audio pending, student
selected, well-formed response) and a failed run on `stateA` (parse
failure), instantiating the theorem at both response shapes. -/
theorem pipeline_audio_cleared_iff_success_witness :
    ((handleTranscribeAndFeedback 9 "d2" (some ⟨some "t", some "f"⟩) stateA).outcome = .success →
      (handleTranscribeAndFeedback 9 "d2" (some ⟨some "t", some "f"⟩) stateA).state.audioBlob
        = none) ∧
    ((handleTranscribeAndFeedback 9 "d2" none stateA).outcome = .failure →
      (handleTranscribeAndFeedback 9 "d2" none stateA).state.audioBlob = some blobA) :=
  ⟨(pipeline_audio_cleared_iff_success 9 "d2" (some ⟨some "t", some "f"⟩) stateA blobA rfl).1,
    (pipeline_audio_cleared_iff_success 9 "d2" none stateA blobA rfl).2⟩

end HoneyModel
